import Mathlib

/-!
Verification of the sales-pipeline dashboard data-access gateway.

Shallow embedding of the backend:
- `src/backend/app/services/demo.py`   (offline provider, pandas over a table)
- `src/backend/app/services/salesforce.py` (live client, SOQL statement building
  and pagination)
- `src/backend/app/auth/session.py`    (session store)
- `src/backend/app/dependencies.py`, `src/backend/app/config.py` (provider
  resolution)

Modelling conventions:
- Python `datetime` values are modelled at day granularity by a `Date`
  structure (proleptic Gregorian) with an ordinal-day function `ord` matching
  `datetime.toordinal`; `timedelta(days = n)` is `ord · + n`.
- pandas NaN / missing cells are `Option` `none`; pandas comparisons against
  NaN are `false`, NaN-skipping sums skip `none`.
- Monetary amounts and probabilities are rationals (`ℚ`); pandas `mean` of a
  column with no non-NaN cell (a NaN result) is modelled as `none`.
- The table loaded from the spreadsheet is an explicit `List Opp` parameter;
  `datetime.now()` is an explicit `now : Date` parameter.
-/

namespace Dashboard

/-! ## Calendar model (proleptic Gregorian, as Python `datetime`) -/

structure Date where
  year : Nat
  month : Nat
  day : Nat
deriving DecidableEq, Repr

def isLeap (y : Nat) : Bool :=
  (y % 4 == 0 && y % 100 != 0) || y % 400 == 0

def daysInMonth (y m : Nat) : Nat :=
  if m = 2 then (if isLeap y then 29 else 28)
  else if m = 4 ∨ m = 6 ∨ m = 9 ∨ m = 11 then 30
  else 31

/-- Days in year `y` strictly before month `m` (m counted from 1). -/
def daysBeforeMonth (y : Nat) : Nat → Nat
  | 0 => 0
  | 1 => 0
  | m + 2 => daysBeforeMonth y (m + 1) + daysInMonth y (m + 1)

/-- Ordinal day number, as Python `datetime.toordinal` (0001-01-01 is day 1). -/
def ord (d : Date) : Nat :=
  365 * (d.year - 1) + (d.year - 1) / 4 - (d.year - 1) / 100 + (d.year - 1) / 400
    + daysBeforeMonth d.year d.month + d.day

/-! ## Records of the `Opportunities` table, after `_load`'s column renames -/

structure Opp where
  id : String
  name : String
  stageName : String
  amount : Option ℚ
  closeDate : Option Date
  probability : ℚ
  ownerName : String
  ownerId : String
  accountName : String
  type : String
  createdDate : Option Date
  isClosed : Bool
  isWon : Bool
deriving DecidableEq, Repr

/-- NaN-skipping column sum, as pandas `Series.sum`. -/
def sumAmounts (l : List Opp) : ℚ :=
  l.foldr (fun r acc => match r.amount with | some a => a + acc | none => acc) 0

/-- Number of rows whose `Amount` cell is not NaN. -/
def countAmounts (l : List Opp) : Nat :=
  (l.filter (fun r => r.amount.isSome)).length

/-! ## DemoClient.get_kpi_summary (src/backend/app/services/demo.py lines 40-66) -/

structure Agg2 where
  count : Nat
  total : ℚ
deriving DecidableEq, Repr

structure OpenAgg where
  count : Nat
  total : ℚ
  /-- `none` models the NaN that pandas `mean` yields when no cell is non-NaN. -/
  average : Option ℚ
deriving DecidableEq, Repr

structure KPISummary where
  open_pipeline : OpenAgg
  won_this_quarter : Agg2
  lost_this_quarter : Agg2
deriving DecidableEq, Repr

/-- `datetime(now.year, (now.month - 1) // 3 * 3 + 1, 1)`. -/
def q_start (now : Date) : Date :=
  ⟨now.year, (now.month - 1) / 3 * 3 + 1, 1⟩

/-- `(CloseDate >= q_start) & (CloseDate < q_start + timedelta(days=92))`;
NaT compares false. -/
def inCodeQuarter (now : Date) (od : Option Date) : Bool :=
  match od with
  | none => false
  | some d => decide (ord (q_start now) ≤ ord d) && decide (ord d < ord (q_start now) + 92)

def get_kpi_summary (df : List Opp) (now : Date) : KPISummary :=
  let open_df := df.filter (fun r => !r.isClosed)
  let won_df := df.filter (fun r => r.isWon && inCodeQuarter now r.closeDate)
  let lost_df := df.filter (fun r => r.isClosed && !r.isWon && inCodeQuarter now r.closeDate)
  { open_pipeline :=
      { count := open_df.length
        total := sumAmounts open_df
        average :=
          if open_df.length = 0 then some 0
          else if countAmounts open_df = 0 then none
          else some (sumAmounts open_df / (countAmounts open_df : ℚ)) }
    won_this_quarter := { count := won_df.length, total := sumAmounts won_df }
    lost_this_quarter := { count := lost_df.length, total := sumAmounts lost_df } }

/-! ## DemoClient.get_opportunity_stages (demo.py lines 68-79) -/

structure StageRow where
  stageName : String
  cnt : Nat
  total_amount : ℚ
deriving DecidableEq, Repr

/-- Group the open rows by `StageName` (count + NaN-skipping amount sum) and
sort by stage name ascending, as `groupby("StageName") ... sort_values`. -/
def get_opportunity_stages (df : List Opp) : List StageRow :=
  let open_df := df.filter (fun r => !r.isClosed)
  let keys := (open_df.map (fun r => r.stageName)).dedup
  let sortedKeys := List.insertionSort (· ≤ ·) keys
  sortedKeys.map (fun k =>
    let g := open_df.filter (fun r => r.stageName = k)
    ⟨k, g.length, sumAmounts g⟩)

/-! ## DemoClient.get_pipeline_over_time (demo.py lines 81-95) -/

structure PipeRow where
  month : Nat
  year : Nat
  total : ℚ
  cnt : Nat
deriving DecidableEq, Repr

/-- (year, month) bucket of a close date. -/
def bucket (d : Date) : Nat × Nat := (d.year, d.month)

/-- Ascending order on (year, month) buckets, as `sort_values(["year","month"])`. -/
def bucketLe (a b : Nat × Nat) : Prop :=
  a.1 < b.1 ∨ (a.1 = b.1 ∧ a.2 ≤ b.2)

instance : DecidableRel bucketLe := fun a b => by
  unfold bucketLe; infer_instance

instance : IsTotal (Nat × Nat) bucketLe :=
  ⟨by intro a b; unfold bucketLe; omega⟩

instance : IsTrans (Nat × Nat) bucketLe :=
  ⟨by intro a b c; unfold bucketLe; omega⟩

/-- `CloseDate >= datetime.now() - timedelta(days=months*30)`; NaT compares false. -/
def afterCutoff (now : Date) (months : Nat) (od : Option Date) : Bool :=
  match od with
  | none => false
  | some d => decide ((ord now : ℤ) - 30 * months ≤ (ord d : ℤ))

def get_pipeline_over_time (df : List Opp) (now : Date) (months : Nat) : List PipeRow :=
  let recent := df.filter (fun r => afterCutoff now months r.closeDate)
  let keys := ((recent.filterMap (fun r => r.closeDate)).map bucket).dedup
  let sortedKeys := List.insertionSort bucketLe keys
  sortedKeys.map (fun ym =>
    let g := recent.filter (fun r => r.closeDate.map bucket = some ym)
    { month := ym.2, year := ym.1, total := sumAmounts g, cnt := g.length })

/-! ## DemoClient.get_opportunities (demo.py lines 107-157) -/

/-- Output record shape built by the list endpoint. Python renders dates as
ISO strings and the empty string for NaT; here the date stays an `Option Date`
(the rendering is injective on day-granularity dates). An absent amount is
coerced to 0, as `float(row["Amount"]) if pd.notna(...) else 0`. -/
structure OppOut where
  id : String
  name : String
  stageName : String
  amount : ℚ
  closeDate : Option Date
  probability : ℚ
  ownerName : String
  accountName : String
  type : String
  createdDate : Option Date
deriving DecidableEq, Repr

def projOut (r : Opp) : OppOut :=
  { id := r.id
    name := r.name
    stageName := r.stageName
    amount := r.amount.getD 0
    closeDate := r.closeDate
    probability := r.probability
    ownerName := r.ownerName
    accountName := r.accountName
    type := r.type
    createdDate := r.createdDate }

structure ListResult where
  records : List OppOut
  total : Nat
  limit : Nat
  offset : Nat
deriving DecidableEq, Repr

/-- `col_map` from the source (unknown keys pass through unchanged). -/
def col_map (s : String) : String :=
  if s = "CloseDate" then "CloseDate"
  else if s = "Amount" then "Amount"
  else if s = "Name" then "Name"
  else if s = "StageName" then "StageName"
  else if s = "Owner.Name" then "OwnerName"
  else if s = "Account.Name" then "AccountName"
  else s

/-- Columns of the loaded table restricted to the fields modelled here
(`filtered.columns` after `_load`'s renames). -/
def dfColumns : List String :=
  ["Id", "Name", "StageName", "Amount", "CloseDate", "Probability",
   "OwnerName", "OwnerId", "AccountName", "Type", "CreatedDate",
   "IsClosed", "IsWon"]

/-- Ascending comparison on an optional rational column; NaN sorts last. -/
def optRatLe : Option ℚ → Option ℚ → Bool
  | some a, some b => decide (a ≤ b)
  | some _, none => true
  | none, some _ => false
  | none, none => true

/-- Ascending comparison on an optional date column; NaT sorts last. -/
def optDateLe : Option Date → Option Date → Bool
  | some a, some b => decide (ord a ≤ ord b)
  | some _, none => true
  | none, some _ => false
  | none, none => true

/-- Ascending row comparison for `sort_values(col)`. -/
def fieldLeB (col : String) (a b : Opp) : Bool :=
  if col = "Amount" then optRatLe a.amount b.amount
  else if col = "CloseDate" then optDateLe a.closeDate b.closeDate
  else if col = "Name" then decide (a.name ≤ b.name)
  else if col = "StageName" then decide (a.stageName ≤ b.stageName)
  else if col = "OwnerName" then decide (a.ownerName ≤ b.ownerName)
  else if col = "AccountName" then decide (a.accountName ≤ b.accountName)
  else if col = "Id" then decide (a.id ≤ b.id)
  else if col = "OwnerId" then decide (a.ownerId ≤ b.ownerId)
  else if col = "Probability" then decide (a.probability ≤ b.probability)
  else if col = "CreatedDate" then optDateLe a.createdDate b.createdDate
  else if col = "Type" then decide (a.type ≤ b.type)
  else if col = "IsClosed" then !a.isClosed || b.isClosed
  else !a.isWon || b.isWon

/-- Python `str.upper()` on the ASCII strings at issue, character by
character. -/
def strUpper (s : String) : String :=
  ⟨s.data.map Char.toUpper⟩

/-- `filtered.sort_values(sort_col, ascending=(sort_dir.upper() == "ASC"))`,
applied only when the mapped column exists (else the frame is left as is). -/
def sortRecords (sort_by sort_dir : String) (l : List Opp) : List Opp :=
  if col_map sort_by ∈ dfColumns then
    if strUpper sort_dir = "ASC" then
      List.insertionSort (fun a b => fieldLeB (col_map sort_by) a b = true) l
    else
      List.insertionSort (fun a b => fieldLeB (col_map sort_by) b a = true) l
  else l

/-- One `if stage: filtered = filtered[filtered[col] == value]` block of the
source, under Python truthiness (`None` or the empty string adds no filter). -/
def truthyFilter (l : List Opp) (v : Option String) (key : Opp → String) :
    List Opp :=
  match v with
  | some s => if s = "" then l else l.filter (fun r => key r = s)
  | none => l

/-- Amount-present baseline filter plus the three optional predicates, in
source order; `min_amount` applies whenever not `None` (pandas `>=` against a
NaN cell is false). -/
def applyFilters (df : List Opp) (stage owner_id : Option String)
    (min_amount : Option ℚ) : List Opp :=
  let f0 := df.filter (fun r => r.amount.isSome)
  let f1 := truthyFilter f0 stage (fun r => r.stageName)
  let f2 := truthyFilter f1 owner_id (fun r => r.ownerId)
  match min_amount with
  | some m => f2.filter (fun r => match r.amount with
      | some a => decide (m ≤ a)
      | none => false)
  | none => f2

def get_opportunities (df : List Opp) (limit offset : Nat)
    (stage owner_id : Option String) (min_amount : Option ℚ)
    (sort_by sort_dir : String) : ListResult :=
  let filtered := applyFilters df stage owner_id min_amount
  let sorted := sortRecords sort_by sort_dir filtered
  let total := sorted.length
  let page := (sorted.drop offset).take limit
  { records := page.map projOut, total := total, limit := limit, offset := offset }

end Dashboard

namespace Dashboard.SF

/-! ## SalesforceClient statement building (salesforce.py lines 98-131)

The live client only builds SOQL text and sends it upstream; the statements
are embedded as the strings the source interpolates. A small evaluator for
the fragment of SOQL the built filters can produce (quoted string literals,
`!= null`, conjunction with `AND`, disjunction with `OR`, `AND` binding
tighter than `OR`) models the platform's documented statement semantics, so
that what a built filter matches can be stated. -/

/-- The single-quote character (written via its code point). -/
def qc : Char := Char.ofNat 39

/-- The single-quote character as a string. -/
def sq : String := String.singleton qc

/-- Python `sep.join(parts)` for `sep = " AND "`. -/
def joinAnd : List String → String
  | [] => ""
  | [c] => c
  | c :: cs => c ++ " AND " ++ joinAnd cs

/-- The `conditions` list built by `get_opportunities` (source order:
baseline `Amount != null`, then stage, owner, minimum amount). The numeric
rendering of `min_amount` is `toString` on the rational. -/
def conditions (stage owner_id : Option String) (min_amount : Option ℚ) :
    List String :=
  ["Amount != null"]
    ++ (match stage with
        | some s => if s = "" then [] else ["StageName = " ++ sq ++ s ++ sq]
        | none => [])
    ++ (match owner_id with
        | some o => if o = "" then [] else ["OwnerId = " ++ sq ++ o ++ sq]
        | none => [])
    ++ (match min_amount with
        | some m => ["Amount >= " ++ toString m]
        | none => [])

/-- `where = " AND ".join(conditions)`. -/
def whereClause (stage owner_id : Option String) (min_amount : Option ℚ) :
    String :=
  joinAnd (conditions stage owner_id min_amount)

/-- The statement built by `SalesforceClient.get_opportunity_stages`
(salesforce.py lines 61-71; Python juxtaposed string literals concatenate). -/
def stagesSoql : String :=
  "SELECT StageName, COUNT(Id) cnt, SUM(Amount) total_amount "
    ++ "FROM Opportunity "
    ++ "WHERE IsClosed = false "
    ++ "GROUP BY StageName "
    ++ "ORDER BY StageName"

/-- The count statement `SELECT COUNT() FROM Opportunity WHERE {where}`. -/
def countSoql (stage owner_id : Option String) (min_amount : Option ℚ) :
    String :=
  "SELECT COUNT() FROM Opportunity WHERE " ++ whereClause stage owner_id min_amount

/-- The page statement with ordering and limit/offset interpolated. -/
def pageSoql (stage owner_id : Option String) (min_amount : Option ℚ)
    (sort_by sort_dir : String) (limit offset : Nat) : String :=
  "SELECT Id, Name, StageName, Amount, CloseDate, "
    ++ "Probability, Owner.Name, Account.Name, Type, "
    ++ "CreatedDate, LastModifiedDate "
    ++ "FROM Opportunity WHERE " ++ whereClause stage owner_id min_amount
    ++ " ORDER BY " ++ sort_by ++ " " ++ sort_dir
    ++ " LIMIT " ++ toString limit ++ " OFFSET " ++ toString offset

/-! ### Mini SOQL filter semantics -/

/-- Split a character list at every occurrence of `" OR "`. -/
def splitOR : List Char → List (List Char)
  | ' ' :: 'O' :: 'R' :: ' ' :: rest => [] :: splitOR rest
  | c :: rest =>
    match splitOR rest with
    | [] => [[c]]
    | g :: gs => (c :: g) :: gs
  | [] => [[]]

/-- Split a character list at every occurrence of `" AND "`. -/
def splitAND : List Char → List (List Char)
  | ' ' :: 'A' :: 'N' :: 'D' :: ' ' :: rest => [] :: splitAND rest
  | c :: rest =>
    match splitAND rest with
    | [] => [[c]]
    | g :: gs => (c :: g) :: gs
  | [] => [[]]

def stageMarker : List Char := ("StageName = ").toList ++ [qc]
def ownerMarker : List Char := ("OwnerId = ").toList ++ [qc]
def nameMarker : List Char := ("Name != ").toList ++ [qc]

/-- Evaluate one atomic condition against a record. A malformed atom (one the
platform would reject or that is outside the modelled fragment) evaluates to
`false`. -/
def evalAtom (a : List Char) (r : Opp) : Bool :=
  if a == ("Amount != null").toList then r.amount.isSome
  else if a == ("IsClosed = false").toList then !r.isClosed
  else if stageMarker.isPrefixOf a && a.getLast? == some qc
      && decide (stageMarker.length < a.length) then
    let lit := (a.drop stageMarker.length).dropLast
    !lit.contains qc && r.stageName.toList == lit
  else if ownerMarker.isPrefixOf a && a.getLast? == some qc
      && decide (ownerMarker.length < a.length) then
    let lit := (a.drop ownerMarker.length).dropLast
    !lit.contains qc && r.ownerId.toList == lit
  else if nameMarker.isPrefixOf a && a.getLast? == some qc
      && decide (nameMarker.length < a.length) then
    let lit := (a.drop nameMarker.length).dropLast
    !lit.contains qc && !(r.name.toList == lit)
  else false

/-- A record satisfies a filter string: disjunction of conjunctions, `AND`
binding tighter than `OR`. -/
def evalWhere (w : String) (r : Opp) : Bool :=
  (splitOR w.toList).any (fun cj => (splitAND cj).all (fun a => evalAtom a r))

/-! ## SalesforceClient.query_all (salesforce.py lines 39-55)

The upstream is modelled as the sequence of pages it would serve: page 0 is
the response to the initial query, page `i + 1` the response to the `i`-th
continuation fetch. `queryAllGo fuel` runs the source's `while not done` loop
for at most `fuel` tests of the loop condition; `none` means the loop is
still running after `fuel` tests (the source has no error path for this), so
real termination is `∃ fuel, query_all pages fuel = some out`. -/

structure QueryPage (α : Type) where
  records : List α
  done : Bool

def queryAllGo {α : Type} (pages : Nat → QueryPage α) :
    Nat → Nat → List α → Option (List α)
  | 0, _, _ => none
  | fuel + 1, i, acc =>
    if (pages i).done then some acc
    else queryAllGo pages fuel (i + 1) (acc ++ (pages (i + 1)).records)

def query_all {α : Type} (pages : Nat → QueryPage α) (fuel : Nat) :
    Option (List α) :=
  queryAllGo pages fuel 0 (pages 0).records

/-- Concatenation of the records of pages `i + 1, ..., i + n`, in page order. -/
def tailConcat {α : Type} (pages : Nat → QueryPage α) (i : Nat) : Nat → List α
  | 0 => []
  | n + 1 => (pages (i + 1)).records ++ tailConcat pages (i + 1) n

/-- Concatenation of the records of pages `0, ..., k`, in page order. -/
def pagesConcat {α : Type} (pages : Nat → QueryPage α) (k : Nat) : List α :=
  (pages 0).records ++ tailConcat pages 0 k

end Dashboard.SF

namespace Dashboard

/-! ## Session store (src/backend/app/auth/session.py)

The module-level dict `_sessions` is modelled as a map from identifiers to
bundles; the random identifier drawn by `secrets.token_urlsafe(32)` inside
`create_session` is an explicit parameter (the one nondeterministic input). -/

structure SessionBundle where
  access_token : String
  refresh_token : Option String
  instance_url : String
deriving DecidableEq, Repr

def SessionStore : Type := String → Option SessionBundle

/-- `_sessions[session_id] = data`. -/
def create_session (st : SessionStore) (sid : String) (data : SessionBundle) :
    SessionStore :=
  fun k => if k = sid then some data else st k

/-- `_sessions.get(session_id)`. -/
def get_session (st : SessionStore) (sid : String) : Option SessionBundle :=
  st sid

/-- `_sessions.pop(session_id, None)` (the store after removal). -/
def delete_session (st : SessionStore) (sid : String) : SessionStore :=
  fun k => if k = sid then none else st k

/-! ## Provider resolution (dependencies.py lines 8-29, config.py lines 24-27) -/

structure Settings where
  sf_client_id : String
  sf_client_secret : String
  demo_mode : Bool
deriving DecidableEq, Repr

/-- `demo_mode or not (sf_client_id and sf_client_secret)` under Python
truthiness of strings. -/
def is_demo (s : Settings) : Bool :=
  s.demo_mode || decide (s.sf_client_id = "") || decide (s.sf_client_secret = "")

inductive SFClientResult where
  | demo
  | unauthenticated
  | sessionExpired
  | live (instance_url access_token : String)
deriving DecidableEq, Repr

/-- `get_sf_client`: the `request.cookies.get("session_id")` value is the
`cookie` parameter (`none` when the cookie is absent; Python `if not
session_id` also treats the empty string as absent). -/
def get_sf_client (settings : Settings) (cookie : Option String)
    (store : SessionStore) : SFClientResult :=
  if is_demo settings then .demo
  else
    match cookie with
    | none => .unauthenticated
    | some sid =>
      if sid = "" then .unauthenticated
      else
        match get_session store sid with
        | none => .sessionExpired
        | some sess => .live sess.instance_url sess.access_token

/-! ## Calendar windows as the spec words them (for refinement comparison) -/

/-- Modelled from the spec: the calendar date `k` whole months before `now`
(day-of-month clamped to the target month's length), used to express "the
trailing months-calendar-month window ending now". -/
def monthsBack (now : Date) (k : Nat) : Date :=
  let t : Int := (now.year : Int) * 12 + (now.month : Int) - 1 - (k : Int)
  let y : Int := t / 12
  let m : Int := t % 12 + 1
  ⟨y.toNat, m.toNat, min now.day (daysInMonth y.toNat m.toNat)⟩

/-- Modelled from the spec: membership of a date in "the trailing
`months`-calendar-month window ending now". -/
def inTrailingWindow (now : Date) (months : Nat) (d : Date) : Prop :=
  ord (monthsBack now months) < ord d ∧ ord d ≤ ord now

/-- Modelled from the spec: "quarter end = quarter start + 3 calendar months
(not a fixed day count)" — the first day of the month three calendar months
after the quarter start. -/
def specQuarterEnd (now : Date) : Date :=
  if (q_start now).month = 10 then ⟨(q_start now).year + 1, 1, 1⟩
  else ⟨(q_start now).year, (q_start now).month + 3, 1⟩

/-! ## Concrete fixtures used by counterexamples and witnesses -/

def nowC2 : Date := ⟨2023, 5, 15⟩

def nowC5 : Date := ⟨2025, 10, 12⟩

def nowC7 : Date := ⟨2024, 1, 1⟩

/-- A won opportunity closing 2023-07-01: inside the code's 92-day quarter
window for `nowC2`, outside the calendar quarter Apr-Jun 2023. -/
def wonJul1 : Opp :=
  { id := "w1"
    name := "Won deal"
    stageName := "Closed Won"
    amount := some 100
    closeDate := some ⟨2023, 7, 1⟩
    probability := 100
    ownerName := "A"
    ownerId := "a"
    accountName := "Acme"
    type := "New Customer"
    createdDate := none
    isClosed := true
    isWon := true }

/-- An open opportunity closing in the future relative to `nowC5`. -/
def futureOpp : Opp :=
  { id := "f1"
    name := "Future deal"
    stageName := "Prospecting"
    amount := some 5
    closeDate := some ⟨2026, 3, 15⟩
    probability := 10
    ownerName := "A"
    ownerId := "a"
    accountName := "Acme"
    type := "New Customer"
    createdDate := none
    isClosed := false
    isWon := false }

def oppA : Opp :=
  { id := "a"
    name := "Deal A"
    stageName := "Prospecting"
    amount := some 100
    closeDate := some ⟨2024, 3, 1⟩
    probability := 10
    ownerName := "A"
    ownerId := "a"
    accountName := "Acme"
    type := "New Customer"
    createdDate := none
    isClosed := false
    isWon := false }

def oppB : Opp :=
  { id := "b"
    name := "Deal B"
    stageName := "Qualification"
    amount := some 200
    closeDate := some ⟨2024, 4, 1⟩
    probability := 20
    ownerName := "B"
    ownerId := "b"
    accountName := "Globex"
    type := "New Customer"
    createdDate := none
    isClosed := true
    isWon := false }

/-- Open row with a present amount. -/
def openPresent : Opp :=
  { id := "p"
    name := "Open with amount"
    stageName := "Prospecting"
    amount := some 10
    closeDate := some ⟨2024, 6, 1⟩
    probability := 10
    ownerName := "A"
    ownerId := "a"
    accountName := "Acme"
    type := "New Customer"
    createdDate := none
    isClosed := false
    isWon := false }

/-- Open row with an absent (NaN) amount. -/
def openAbsent : Opp :=
  { id := "q"
    name := "Open without amount"
    stageName := "Qualification"
    amount := none
    closeDate := some ⟨2024, 7, 1⟩
    probability := 20
    ownerName := "B"
    ownerId := "b"
    accountName := "Globex"
    type := "New Customer"
    createdDate := none
    isClosed := false
    isWon := false }

/-- A record whose stage differs from any filter value used below and whose
amount is absent. -/
def rOther : Opp :=
  { id := "o1"
    name := "Bystander"
    stageName := "Other"
    amount := none
    closeDate := none
    probability := 0
    ownerName := ""
    ownerId := ""
    accountName := ""
    type := ""
    createdDate := none
    isClosed := false
    isWon := false }

/-- A stage filter value carrying a quote character:
`x' OR Name != '` (quotes written via `SF.sq`). -/
def inj : String := "x" ++ SF.sq ++ " OR Name != " ++ SF.sq

/-- An upstream that reports `done = false` on every page. -/
def neverDone : Nat → SF.QueryPage Nat := fun _ => ⟨[0], false⟩

/-- An upstream answering the initial query plus two continuations: the
third page reports completion. -/
def pages3 : Nat → SF.QueryPage Nat := fun i =>
  if i = 0 then ⟨[1, 2], false⟩
  else if i = 1 then ⟨[3], false⟩
  else if i = 2 then ⟨[4, 5], true⟩
  else ⟨[], true⟩

def emptyStore : SessionStore := fun _ => none

def bundleW : SessionBundle :=
  { access_token := "tok1", refresh_token := none, instance_url := "url1" }

def demoSettings : Settings :=
  { sf_client_id := "", sf_client_secret := "", demo_mode := false }

def liveSettings : Settings :=
  { sf_client_id := "cid", sf_client_secret := "secret", demo_mode := false }

def storeW : SessionStore := create_session emptyStore "sid1" bundleW

/-! ## Helper lemmas -/

open List

lemma truthyFilter_sublist (l : List Opp) (v : Option String) (key : Opp → String) :
    truthyFilter l v key <+ l := by
  cases v with
  | none => exact List.Sublist.refl _
  | some s =>
    dsimp only [truthyFilter]
    split
    · exact List.Sublist.refl _
    · exact List.filter_sublist _

lemma applyFilters_sublist (df : List Opp) (stage owner_id : Option String)
    (ma : Option ℚ) :
    applyFilters df stage owner_id ma <+ df.filter (fun r => r.amount.isSome) := by
  unfold applyFilters
  have h12 : truthyFilter (truthyFilter (df.filter (fun r => r.amount.isSome)) stage
        (fun r => r.stageName)) owner_id (fun r => r.ownerId)
      <+ df.filter (fun r => r.amount.isSome) :=
    (truthyFilter_sublist _ _ _).trans (truthyFilter_sublist _ _ _)
  cases ma with
  | none => exact h12
  | some m => exact (List.filter_sublist _).trans h12

lemma sortRecords_perm (sb sd : String) (l : List Opp) : sortRecords sb sd l ~ l := by
  unfold sortRecords
  split
  · split
    · exact List.perm_insertionSort _ l
    · exact List.perm_insertionSort _ l
  · exact List.Perm.refl l

lemma get_opportunities_total (df : List Opp) (limit offset : Nat)
    (stage owner_id : Option String) (ma : Option ℚ) (sb sd : String) :
    (get_opportunities df limit offset stage owner_id ma sb sd).total
      = (applyFilters df stage owner_id ma).length := by
  unfold get_opportunities
  exact (sortRecords_perm sb sd _).length_eq

lemma get_opportunities_length (df : List Opp) (limit offset : Nat)
    (stage owner_id : Option String) (ma : Option ℚ) (sb sd : String) :
    (get_opportunities df limit offset stage owner_id ma sb sd).records.length
      = min limit
        ((get_opportunities df limit offset stage owner_id ma sb sd).total - offset) := by
  unfold get_opportunities
  simp [List.length_take, List.length_drop]

lemma queryAllGo_none {α : Type} (pages : Nat → SF.QueryPage α)
    (h : ∀ i, (pages i).done = false) :
    ∀ fuel i acc, SF.queryAllGo pages fuel i acc = none := by
  intro fuel
  induction fuel with
  | zero => intro i acc; rfl
  | succ n ih => intro i acc; simp [SF.queryAllGo, h i, ih]

lemma queryAllGo_done {α : Type} (pages : Nat → SF.QueryPage α) (k : Nat)
    (hk : (pages k).done = true) (hb : ∀ i, i < k → (pages i).done = false) :
    ∀ fuel i acc, i ≤ k → k - i < fuel →
      SF.queryAllGo pages fuel i acc = some (acc ++ SF.tailConcat pages i (k - i)) := by
  intro fuel
  induction fuel with
  | zero => intro i acc h1 h2; omega
  | succ n ih =>
    intro i acc hik hf
    by_cases hi : i = k
    · subst hi
      simp [SF.queryAllGo, hk, Nat.sub_self, SF.tailConcat]
    · have hlt : i < k := lt_of_le_of_ne hik hi
      have hdone : (pages i).done = false := hb i hlt
      have hrec := ih (i + 1) (acc ++ (pages (i + 1)).records) (by omega) (by omega)
      have ht : SF.tailConcat pages i (k - i)
          = (pages (i + 1)).records ++ SF.tailConcat pages (i + 1) (k - (i + 1)) := by
        have he : k - i = (k - (i + 1)) + 1 := by omega
        rw [he, SF.tailConcat]
      simp only [SF.queryAllGo, hdone, Bool.false_eq_true, if_false]
      rw [hrec, ht, List.append_assoc]

lemma inCodeQuarter_eq91 (now : Date) (od : Option Date) :
    inCodeQuarter now od
      = match od with
        | some d => decide (ord (q_start now) ≤ ord d)
            && decide (ord d ≤ ord (q_start now) + 91)
        | none => false := by
  cases od with
  | none => rfl
  | some d =>
    simp only [inCodeQuarter]
    rw [show (decide (ord d < ord (q_start now) + 92))
        = (decide (ord d ≤ ord (q_start now) + 91)) from decide_eq_decide.mpr (by omega)]

/-! ## Claim theorems -/

/-- C1 (counterexample): the source's `query_all` loop has no hard bound on
continuation iterations — against an upstream whose every page reports
`done = false`, no number of loop iterations ever completes (the loop never
stops, so no `PaginationOverrun`-style error is ever surfaced). -/
theorem C1_counterexample : ¬ ∃ fuel out, SF.query_all neverDone fuel = some out := by
  rintro ⟨fuel, out, h⟩
  rw [SF.query_all, queryAllGo_none neverDone (fun i => rfl) fuel 0 _] at h
  exact Option.noConfusion h

/-- C1 (amended): `query_all` imposes no bound on continuation iterations —
when the upstream never reports completion the loop runs forever (for every
iteration budget it is still running); when the upstream first reports
`done = true` at page `k`, `query_all` terminates and returns the
concatenation of the records of pages `0..k` in page order. -/
theorem C1_query_all_pagination :
    (∀ (α : Type) (pages : Nat → SF.QueryPage α) (k fuel : Nat),
        (∀ i, i < k → (pages i).done = false) → (pages k).done = true → k < fuel →
        SF.query_all pages fuel = some (SF.pagesConcat pages k))
    ∧ (∀ (α : Type) (pages : Nat → SF.QueryPage α),
        (∀ i, (pages i).done = false) → ∀ fuel, SF.query_all pages fuel = none) := by
  constructor
  · intro α pages k fuel hb hk hf
    have h := queryAllGo_done pages k hk hb fuel 0 (pages 0).records (by omega) (by omega)
    rw [SF.query_all, h, Nat.sub_zero, SF.pagesConcat]
  · intro α pages h fuel
    exact queryAllGo_none pages h fuel 0 _

/-- C1 (witness): a three-page upstream is concatenated in page order with
any sufficient iteration budget; the never-done upstream is still looping
after 5 iterations. -/
theorem C1_witness :
    SF.query_all pages3 4 = some [1, 2, 3, 4, 5]
    ∧ SF.query_all neverDone 5 = none := by
  constructor
  · have h := C1_query_all_pagination.1 Nat pages3 2 4 (by decide) (by decide) (by decide)
    rw [h]
    rfl
  · exact C1_query_all_pagination.2 Nat neverDone (fun i => rfl) 5

/-- C2 (counterexample): with `now = 2023-05-15` the quarter start is
2023-04-01 and "quarter start + 3 calendar months" is 2023-07-01, yet the
offline `get_kpi_summary` counts a won record closing 2023-07-01 — a date
outside `[quarter start, quarter start + 3 calendar months)` — because the
code's window is `q_start + timedelta(days=92)` (2023-07-02). -/
theorem C2_counterexample :
    (get_kpi_summary [wonJul1] nowC2).won_this_quarter.count = 1
    ∧ wonJul1.closeDate = some ⟨2023, 7, 1⟩
    ∧ q_start nowC2 = ⟨2023, 4, 1⟩
    ∧ specQuarterEnd nowC2 = ⟨2023, 7, 1⟩
    ∧ ¬ (ord (⟨2023, 7, 1⟩ : Date) < ord (specQuarterEnd nowC2)) := by
  refine ⟨by decide, rfl, by decide, by decide, by decide⟩

/-- C2 (amended): the offline `kpi_summary` computes the quarter start as
the first day of month `((current_month − 1) // 3) * 3 + 1` of the current
year, but the quarter end as quarter start plus a fixed 92 days (not 3
calendar months); `won_this_quarter` and `lost_this_quarter` count and sum
exactly the records whose close date ordinal lies in
`[ord q_start, ord q_start + 91]`, i.e. `[q_start, q_start + 92 days)`. -/
theorem C2_quarter_window : ∀ (df : List Opp) (now : Date),
    (get_kpi_summary df now).won_this_quarter.count
      = (df.filter (fun r => r.isWon &&
          match r.closeDate with
          | some d => decide (ord (q_start now) ≤ ord d)
              && decide (ord d ≤ ord (q_start now) + 91)
          | none => false)).length
    ∧ (get_kpi_summary df now).won_this_quarter.total
      = sumAmounts (df.filter (fun r => r.isWon &&
          match r.closeDate with
          | some d => decide (ord (q_start now) ≤ ord d)
              && decide (ord d ≤ ord (q_start now) + 91)
          | none => false))
    ∧ (get_kpi_summary df now).lost_this_quarter.count
      = (df.filter (fun r => r.isClosed && !r.isWon &&
          match r.closeDate with
          | some d => decide (ord (q_start now) ≤ ord d)
              && decide (ord d ≤ ord (q_start now) + 91)
          | none => false)).length
    ∧ (get_kpi_summary df now).lost_this_quarter.total
      = sumAmounts (df.filter (fun r => r.isClosed && !r.isWon &&
          match r.closeDate with
          | some d => decide (ord (q_start now) ≤ ord d)
              && decide (ord d ≤ ord (q_start now) + 91)
          | none => false))
    ∧ q_start now = ⟨now.year, ((now.month - 1) / 3) * 3 + 1, 1⟩ := by
  intro df now
  refine ⟨?_, ?_, ?_, ?_, rfl⟩
  · show (df.filter (fun r => r.isWon && inCodeQuarter now r.closeDate)).length = _
    congr 1
    exact List.filter_congr (fun r _ => by rw [inCodeQuarter_eq91])
  · show sumAmounts (df.filter (fun r => r.isWon && inCodeQuarter now r.closeDate)) = _
    congr 1
    exact List.filter_congr (fun r _ => by rw [inCodeQuarter_eq91])
  · show (df.filter (fun r => r.isClosed && !r.isWon && inCodeQuarter now r.closeDate)).length = _
    congr 1
    exact List.filter_congr (fun r _ => by rw [inCodeQuarter_eq91])
  · show sumAmounts (df.filter
        (fun r => r.isClosed && !r.isWon && inCodeQuarter now r.closeDate)) = _
    congr 1
    exact List.filter_congr (fun r _ => by rw [inCodeQuarter_eq91])

/-- C3 (counterexample): the live list filter does not neutralize quote
characters — for the stage value `x' OR Name != '` the built filter is
satisfied by a record whose stage differs from the supplied value (and whose
amount is even absent), so the statement's logical structure is altered and
the result set widened. -/
theorem C3_counterexample :
    SF.evalWhere (SF.whereClause (some inj) none none) rOther = true
    ∧ rOther.stageName ≠ inj
    ∧ rOther.amount.isSome = false := by
  refine ⟨by decide, by decide, rfl⟩

/-- C3 (amended): the live `get_opportunities` interpolates a nonempty stage
filter value into the statement text verbatim — no quote character is
neutralized — yielding the filter
`Amount != null AND StageName = '<value>'`; a value containing a quote can
therefore restructure and widen the filter. -/
theorem C3_stage_interpolation : ∀ s : String, s ≠ "" →
    SF.whereClause (some s) none none
      = "Amount != null AND StageName = " ++ SF.sq ++ s ++ SF.sq := by
  intro s hs
  unfold SF.whereClause SF.conditions
  dsimp only
  rw [if_neg hs]
  show SF.joinAnd ["Amount != null", "StageName = " ++ SF.sq ++ s ++ SF.sq] = _
  apply String.ext
  have hsq : SF.sq.data = [SF.qc] := rfl
  simp [SF.joinAnd, String.data_append, hsq, List.append_assoc]

/-- C3 (witness): the filter built for the quote-free stage value
`Prospecting`. -/
theorem C3_witness :
    SF.whereClause (some "Prospecting") none none
      = "Amount != null AND StageName = " ++ SF.sq ++ "Prospecting" ++ SF.sq :=
  C3_stage_interpolation "Prospecting" (by decide)

/-- C4 (counterexample): with a 2-record table, `limit = 5` (valid) and
`offset = 10` (valid, `≥ 0`), the offline `get_opportunities` returns
`total = 2` and an empty page, so `offset + returned.length ≤ total`
fails. -/
theorem C4_counterexample :
    (1 : Nat) ≤ 5 ∧ (5 : Nat) ≤ 200
    ∧ (get_opportunities [oppA, oppB] 5 10 none none none "CloseDate" "DESC").total = 2
    ∧ (get_opportunities [oppA, oppB] 5 10 none none none "CloseDate" "DESC").records.length = 0
    ∧ ¬ (10 + (get_opportunities [oppA, oppB] 5 10 none none none "CloseDate" "DESC").records.length
          ≤ (get_opportunities [oppA, oppB] 5 10 none none none "CloseDate" "DESC").total) := by
  decide

/-- C4 (amended): for all valid `limit ∈ [1, 200]` and `offset ≥ 0`,
`get_opportunities` returns at most `limit` records, never more records than
`total`, and `offset + returned.length ≤ total` holds whenever
`offset ≤ total`; when `offset` exceeds `total` the page is empty (and the
claimed inequality fails). -/
theorem C4_pagination_bounds :
    ∀ (df : List Opp) (limit offset : Nat) (stage owner_id : Option String)
      (ma : Option ℚ) (sb sd : String), 1 ≤ limit → limit ≤ 200 →
    (get_opportunities df limit offset stage owner_id ma sb sd).records.length ≤ limit
    ∧ (get_opportunities df limit offset stage owner_id ma sb sd).records.length
        ≤ (get_opportunities df limit offset stage owner_id ma sb sd).total
    ∧ (offset ≤ (get_opportunities df limit offset stage owner_id ma sb sd).total →
        offset + (get_opportunities df limit offset stage owner_id ma sb sd).records.length
          ≤ (get_opportunities df limit offset stage owner_id ma sb sd).total)
    ∧ ((get_opportunities df limit offset stage owner_id ma sb sd).total < offset →
        (get_opportunities df limit offset stage owner_id ma sb sd).records.length = 0) := by
  intro df limit offset stage owner_id ma sb sd h1 h2
  have hl := get_opportunities_length df limit offset stage owner_id ma sb sd
  omega

/-- C4 (witness): the bounds instantiated at a concrete table and page
request with `limit = 5`, `offset = 0`. -/
theorem C4_witness :
    (get_opportunities [oppA, oppB] 5 0 none none none "CloseDate" "DESC").records.length ≤ 5
    ∧ (get_opportunities [oppA, oppB] 5 0 none none none "CloseDate" "DESC").records.length
        ≤ (get_opportunities [oppA, oppB] 5 0 none none none "CloseDate" "DESC").total
    ∧ ((0 : Nat) ≤ (get_opportunities [oppA, oppB] 5 0 none none none "CloseDate" "DESC").total →
        0 + (get_opportunities [oppA, oppB] 5 0 none none none "CloseDate" "DESC").records.length
          ≤ (get_opportunities [oppA, oppB] 5 0 none none none "CloseDate" "DESC").total)
    ∧ ((get_opportunities [oppA, oppB] 5 0 none none none "CloseDate" "DESC").total < 0 →
        (get_opportunities [oppA, oppB] 5 0 none none none "CloseDate" "DESC").records.length = 0) :=
  C4_pagination_bounds [oppA, oppB] 5 0 none none none "CloseDate" "DESC"
    (by decide) (by decide)

/-- C5 (counterexample): with `now = 2025-10-12` and `months = 12`, the
offline `get_pipeline_over_time` returns the bucket (2026, 3) for a record
closing 2026-03-15 — a close-date bucket outside any trailing 12-month
window ending now, because the code only bounds close dates from below
(`CloseDate >= now - months*30 days`). -/
theorem C5_counterexample :
    ((get_pipeline_over_time [futureOpp] nowC5 12).map (fun p => (p.year, p.month)))
      = [(2026, 3)]
    ∧ ¬ inTrailingWindow nowC5 12 ⟨2026, 3, 15⟩ := by
  constructor
  · decide
  · intro h
    exact absurd h.2 (by decide)

/-- C5 (amended): `get_pipeline_over_time` rows are strictly ordered by
(year, month) ascending, and every row's bucket is the bucket of a record
whose close date is at or after `now − months*30 days` (a fixed 30-day month
approximation); there is no upper bound, so close dates after `now` are
included. -/
theorem C5_pipeline_window : ∀ (df : List Opp) (now : Date) (months : Nat),
    (get_pipeline_over_time df now months).Pairwise
      (fun a b => a.year < b.year ∨ (a.year = b.year ∧ a.month < b.month))
    ∧ (∀ row ∈ get_pipeline_over_time df now months,
        ∃ r, r ∈ df ∧ ∃ d, r.closeDate = some d
          ∧ (ord now : ℤ) - 30 * months ≤ (ord d : ℤ)
          ∧ d.year = row.year ∧ d.month = row.month) := by
  intro df now months
  have hperm : List.insertionSort bucketLe
      (((df.filter (fun r => afterCutoff now months r.closeDate)).filterMap
        (fun r => r.closeDate)).map bucket).dedup
      ~ (((df.filter (fun r => afterCutoff now months r.closeDate)).filterMap
        (fun r => r.closeDate)).map bucket).dedup := List.perm_insertionSort _ _
  have hnodup := (hperm.nodup_iff).mpr (List.nodup_dedup _)
  have hsortle := List.sorted_insertionSort bucketLe
      ((((df.filter (fun r => afterCutoff now months r.closeDate)).filterMap
        (fun r => r.closeDate)).map bucket).dedup)
  have hsortlt : (List.insertionSort bucketLe
      ((((df.filter (fun r => afterCutoff now months r.closeDate)).filterMap
        (fun r => r.closeDate)).map bucket).dedup)).Pairwise
      (fun a b => a.1 < b.1 ∨ (a.1 = b.1 ∧ a.2 < b.2)) := by
    refine hsortle.imp₂ (fun a b hle hne => ?_) hnodup
    unfold bucketLe at hle
    rcases hle with h | ⟨h1, h2⟩
    · exact Or.inl h
    · exact Or.inr ⟨h1, lt_of_le_of_ne h2 (fun he => hne (Prod.ext h1 he))⟩
  have hrows : get_pipeline_over_time df now months
      = (List.insertionSort bucketLe
          ((((df.filter (fun r => afterCutoff now months r.closeDate)).filterMap
            (fun r => r.closeDate)).map bucket).dedup)).map
        (fun ym =>
          let g := (df.filter (fun r => afterCutoff now months r.closeDate)).filter
            (fun r => r.closeDate.map bucket = some ym)
          { month := ym.2, year := ym.1, total := sumAmounts g, cnt := g.length }) := rfl
  constructor
  · rw [hrows]
    exact List.pairwise_map.mpr hsortlt
  · intro row hrow
    rw [hrows] at hrow
    obtain ⟨ym, hym, hmk⟩ := List.mem_map.mp hrow
    have h1 := List.mem_dedup.mp (hperm.mem_iff.mp hym)
    obtain ⟨d, hd, hbd⟩ := List.mem_map.mp h1
    obtain ⟨r, hr, hrd⟩ := List.mem_filterMap.mp hd
    obtain ⟨hrdf, hcut⟩ := List.mem_filter.mp hr
    refine ⟨r, hrdf, d, hrd, ?_, ?_, ?_⟩
    · have hc : afterCutoff now months r.closeDate = true := hcut
      rw [hrd] at hc
      simpa [afterCutoff] using hc
    · have hy : row.year = ym.1 := by rw [← hmk]
      rw [hy, ← hbd]
      rfl
    · have hm : row.month = ym.2 := by rw [← hmk]
      rw [hm, ← hbd]
      rfl

/-- C5 (witness): the window and ordering facts instantiated at a concrete
table, `now = 2025-10-12`, `months = 12`. -/
theorem C5_witness :
    (get_pipeline_over_time [futureOpp] nowC5 12).Pairwise
      (fun a b => a.year < b.year ∨ (a.year = b.year ∧ a.month < b.month))
    ∧ (∀ row ∈ get_pipeline_over_time [futureOpp] nowC5 12,
        ∃ r, r ∈ [futureOpp] ∧ ∃ d, r.closeDate = some d
          ∧ (ord nowC5 : ℤ) - 30 * 12 ≤ (ord d : ℤ)
          ∧ d.year = row.year ∧ d.month = row.month) :=
  C5_pipeline_window [futureOpp] nowC5 12

/-- C6: in both providers no closed stage appears and rows are one per
distinct open stage, ordered by stage name ascending. Offline: every row of
`get_opportunity_stages` is the stage of some open (`IsClosed = false`)
record, stage names are pairwise distinct, every open record's stage
appears, and rows are strictly ordered by stage name ascending. Live: the
statement built by `SalesforceClient.get_opportunity_stages` groups by
`StageName`, orders by `StageName` (SOQL ascending default), and its filter
`IsClosed = false` matches exactly the open records, so no closed record
contributes to any row the upstream returns for it. -/
theorem C6_stage_breakdown : ∀ df : List Opp,
    (∀ row ∈ get_opportunity_stages df,
        ∃ r, r ∈ df ∧ r.isClosed = false ∧ r.stageName = row.stageName)
    ∧ ((get_opportunity_stages df).map (fun row => row.stageName)).Nodup
    ∧ (get_opportunity_stages df).Pairwise (fun a b => a.stageName < b.stageName)
    ∧ (∀ r ∈ df, r.isClosed = false →
        ∃ row ∈ get_opportunity_stages df, row.stageName = r.stageName)
    ∧ SF.stagesSoql
        = "SELECT StageName, COUNT(Id) cnt, SUM(Amount) total_amount FROM Opportunity WHERE "
          ++ "IsClosed = false" ++ " GROUP BY StageName ORDER BY StageName"
    ∧ (∀ r : Opp, SF.evalWhere "IsClosed = false" r = !r.isClosed) := by
  intro df
  have hopen : ∀ r, r ∈ df.filter (fun r => !r.isClosed) ↔ (r ∈ df ∧ r.isClosed = false) := by
    intro r
    rw [List.mem_filter]
    simp
  have hperm : List.insertionSort (· ≤ ·)
      ((df.filter (fun r => !r.isClosed)).map (fun r => r.stageName)).dedup
      ~ ((df.filter (fun r => !r.isClosed)).map (fun r => r.stageName)).dedup :=
    List.perm_insertionSort _ _
  have hnodup : (List.insertionSort (· ≤ ·)
      ((df.filter (fun r => !r.isClosed)).map (fun r => r.stageName)).dedup).Nodup :=
    (hperm.nodup_iff).mpr (List.nodup_dedup _)
  have hsortlt : (List.insertionSort (· ≤ ·)
      ((df.filter (fun r => !r.isClosed)).map (fun r => r.stageName)).dedup).Sorted (· < ·) :=
    (List.sorted_insertionSort _ _).lt_of_le hnodup
  have hrows : get_opportunity_stages df = (List.insertionSort (· ≤ ·)
      ((df.filter (fun r => !r.isClosed)).map (fun r => r.stageName)).dedup).map
      (fun k =>
        let g := (df.filter (fun r => !r.isClosed)).filter (fun r => r.stageName = k)
        ⟨k, g.length, sumAmounts g⟩) := rfl
  have hmap : (get_opportunity_stages df).map (fun row => row.stageName)
      = List.insertionSort (· ≤ ·)
        ((df.filter (fun r => !r.isClosed)).map (fun r => r.stageName)).dedup := by
    rw [hrows, List.map_map]
    exact List.map_id _
  refine ⟨?_, ?_, ?_, ?_, by decide, ?_⟩
  · intro row hrow
    have h1 : row.stageName ∈ (get_opportunity_stages df).map (fun row => row.stageName) :=
      List.mem_map_of_mem _ hrow
    rw [hmap] at h1
    have h2 := List.mem_dedup.mp (hperm.mem_iff.mp h1)
    obtain ⟨r, hr, hrs⟩ := List.mem_map.mp h2
    obtain ⟨hrdf, hrc⟩ := (hopen r).mp hr
    exact ⟨r, hrdf, hrc, hrs⟩
  · rw [hmap]
    exact hnodup
  · rw [hrows]
    exact List.pairwise_map.mpr hsortlt
  · intro r hr hc
    have h1 : r.stageName ∈ (get_opportunity_stages df).map (fun row => row.stageName) := by
      rw [hmap]
      exact hperm.mem_iff.mpr (List.mem_dedup.mpr
        (List.mem_map_of_mem _ ((hopen r).mpr ⟨hr, hc⟩)))
    obtain ⟨row, hrow, h⟩ := List.mem_map.mp h1
    exact ⟨row, hrow, h⟩
  · intro r
    have h1 : SF.splitOR ("IsClosed = false").toList = [("IsClosed = false").toList] := by
      decide
    have h2 : SF.splitAND ("IsClosed = false").toList = [("IsClosed = false").toList] := by
      decide
    have hne : (("IsClosed = false").toList == ("Amount != null").toList) = false := by
      decide
    have heq : (("IsClosed = false").toList == ("IsClosed = false").toList) = true := by
      decide
    unfold SF.evalWhere
    rw [h1]
    simp only [List.any_cons, List.any_nil, h2, List.all_cons, List.all_nil, SF.evalAtom,
      hne, heq]
    simp

/-- C6 (witness): the stage-breakdown facts instantiated at a concrete
table containing one open and one closed record, together with the live
statement facts. -/
theorem C6_witness :
    (∀ row ∈ get_opportunity_stages [oppA, oppB],
        ∃ r, r ∈ [oppA, oppB] ∧ r.isClosed = false ∧ r.stageName = row.stageName)
    ∧ ((get_opportunity_stages [oppA, oppB]).map (fun row => row.stageName)).Nodup
    ∧ (get_opportunity_stages [oppA, oppB]).Pairwise
        (fun a b => a.stageName < b.stageName)
    ∧ (∀ r ∈ [oppA, oppB], r.isClosed = false →
        ∃ row ∈ get_opportunity_stages [oppA, oppB], row.stageName = r.stageName)
    ∧ SF.stagesSoql
        = "SELECT StageName, COUNT(Id) cnt, SUM(Amount) total_amount FROM Opportunity WHERE "
          ++ "IsClosed = false" ++ " GROUP BY StageName ORDER BY StageName"
    ∧ (∀ r : Opp, SF.evalWhere "IsClosed = false" r = !r.isClosed) :=
  C6_stage_breakdown [oppA, oppB]

/-- C7 (counterexample): on a table with two open records, one of amount 10
and one with an absent amount, the offline `kpi_summary` reports
`open_pipeline` count 2, total 10 and average 10, while total divided by
count is 5 — so the average is not total/count even though count > 0. -/
theorem C7_counterexample :
    (get_kpi_summary [openPresent, openAbsent] nowC7).open_pipeline.count = 2
    ∧ (get_kpi_summary [openPresent, openAbsent] nowC7).open_pipeline.total = 10
    ∧ (get_kpi_summary [openPresent, openAbsent] nowC7).open_pipeline.average = some 10
    ∧ (get_kpi_summary [openPresent, openAbsent] nowC7).open_pipeline.total
        / ((get_kpi_summary [openPresent, openAbsent] nowC7).open_pipeline.count : ℚ) = 5
    ∧ (10 : ℚ) ≠ 5 := by
  refine ⟨rfl, ?_, ?_, ?_, by norm_num⟩
  · show sumAmounts (List.filter (fun r => !r.isClosed) [openPresent, openAbsent]) = 10
    simp [sumAmounts, openPresent, openAbsent]
  · show (if (List.filter (fun r => !r.isClosed) [openPresent, openAbsent]).length = 0
        then some 0
        else if countAmounts (List.filter (fun r => !r.isClosed) [openPresent, openAbsent]) = 0
        then none
        else some (sumAmounts (List.filter (fun r => !r.isClosed) [openPresent, openAbsent])
            / (countAmounts (List.filter (fun r => !r.isClosed) [openPresent, openAbsent]) : ℚ)))
      = some 10
    simp [sumAmounts, countAmounts, openPresent, openAbsent]
  · show sumAmounts (List.filter (fun r => !r.isClosed) [openPresent, openAbsent])
        / (((List.filter (fun r => !r.isClosed) [openPresent, openAbsent]).length : Nat) : ℚ) = 5
    simp [sumAmounts, openPresent, openAbsent]
    norm_num

/-- C7 (amended): in the offline `kpi_summary`, `open_pipeline.average`
equals `open_pipeline.total` divided by the number of open records whose
amount is present (not by `open_pipeline.count`, which counts all open
records) whenever that number is positive; it is 0 when there are no open
records; and it coincides with total/count exactly when every open record's
amount is present. -/
theorem C7_average : ∀ (df : List Opp) (now : Date),
    ((df.filter (fun r => !r.isClosed)).length = 0 →
      (get_kpi_summary df now).open_pipeline.average = some 0)
    ∧ (0 < countAmounts (df.filter (fun r => !r.isClosed)) →
      (get_kpi_summary df now).open_pipeline.average
        = some ((get_kpi_summary df now).open_pipeline.total
            / (countAmounts (df.filter (fun r => !r.isClosed)) : ℚ)))
    ∧ ((∀ r ∈ df.filter (fun r => !r.isClosed), r.amount.isSome = true) →
      0 < (get_kpi_summary df now).open_pipeline.count →
      (get_kpi_summary df now).open_pipeline.average
        = some ((get_kpi_summary df now).open_pipeline.total
            / ((get_kpi_summary df now).open_pipeline.count : ℚ))) := by
  intro df now
  have havg : (get_kpi_summary df now).open_pipeline.average
      = (if (df.filter (fun r => !r.isClosed)).length = 0 then some 0
         else if countAmounts (df.filter (fun r => !r.isClosed)) = 0 then none
         else some (sumAmounts (df.filter (fun r => !r.isClosed))
            / (countAmounts (df.filter (fun r => !r.isClosed)) : ℚ))) := rfl
  have htot : (get_kpi_summary df now).open_pipeline.total
      = sumAmounts (df.filter (fun r => !r.isClosed)) := rfl
  have hcnt : (get_kpi_summary df now).open_pipeline.count
      = (df.filter (fun r => !r.isClosed)).length := rfl
  have hle : countAmounts (df.filter (fun r => !r.isClosed))
      ≤ (df.filter (fun r => !r.isClosed)).length := List.length_filter_le _ _
  refine ⟨?_, ?_, ?_⟩
  · intro h0
    rw [havg, if_pos h0]
  · intro hpos
    rw [havg, if_neg (by omega), if_neg (by omega), htot]
  · intro hall hpos
    have heq : (df.filter (fun r => !r.isClosed)).filter (fun r => r.amount.isSome)
        = df.filter (fun r => !r.isClosed) := List.filter_eq_self.mpr hall
    have hca : countAmounts (df.filter (fun r => !r.isClosed))
        = (df.filter (fun r => !r.isClosed)).length := by
      unfold countAmounts
      rw [heq]
    rw [hcnt] at hpos
    rw [havg, if_neg (by omega), if_neg (by omega), htot, hca, hcnt]

/-- C7 (witness): the average facts instantiated at a one-record table whose
open record has a present amount. -/
theorem C7_witness :
    (((List.filter (fun r => !r.isClosed) [openPresent]).length = 0 →
      (get_kpi_summary [openPresent] nowC7).open_pipeline.average = some 0)
    ∧ (0 < countAmounts (List.filter (fun r => !r.isClosed) [openPresent]) →
      (get_kpi_summary [openPresent] nowC7).open_pipeline.average
        = some ((get_kpi_summary [openPresent] nowC7).open_pipeline.total
            / (countAmounts (List.filter (fun r => !r.isClosed) [openPresent]) : ℚ)))
    ∧ ((∀ r ∈ List.filter (fun r => !r.isClosed) [openPresent], r.amount.isSome = true) →
      0 < (get_kpi_summary [openPresent] nowC7).open_pipeline.count →
      (get_kpi_summary [openPresent] nowC7).open_pipeline.average
        = some ((get_kpi_summary [openPresent] nowC7).open_pipeline.total
            / ((get_kpi_summary [openPresent] nowC7).open_pipeline.count : ℚ))))
    ∧ (get_kpi_summary [openPresent] nowC7).open_pipeline.average
        = some ((get_kpi_summary [openPresent] nowC7).open_pipeline.total
            / ((get_kpi_summary [openPresent] nowC7).open_pipeline.count : ℚ)) := by
  have h := C7_average [openPresent] nowC7
  exact ⟨h, h.2.2 (by decide) (by decide)⟩

/-- C8: provider resolution — in demo mode (explicit flag or an absent
credential) the gateway yields the offline provider for any cookie and
store; otherwise an absent (or empty) session cookie yields
`unauthenticated`, a cookie that does not resolve in the store yields
`sessionExpired`, and a resolving cookie yields a live client bound to the
session's instance URL and access token. -/
theorem C8_provider_resolution : ∀ (s : Settings) (store : SessionStore),
    (∀ cookie, is_demo s = true → get_sf_client s cookie store = .demo)
    ∧ (s.demo_mode = false → s.sf_client_id ≠ "" → s.sf_client_secret ≠ "" →
        (get_sf_client s none store = .unauthenticated
        ∧ (∀ sid, sid ≠ "" → get_session store sid = none →
            get_sf_client s (some sid) store = .sessionExpired)
        ∧ (∀ sid sess, sid ≠ "" → get_session store sid = some sess →
            get_sf_client s (some sid) store
              = .live sess.instance_url sess.access_token))) := by
  intro s store
  constructor
  · intro cookie hd
    unfold get_sf_client
    rw [hd]
    rfl
  · intro h1 h2 h3
    have hd : is_demo s = false := by
      unfold is_demo
      rw [h1]
      simp [h2, h3]
    refine ⟨?_, ?_, ?_⟩
    · unfold get_sf_client
      rw [hd]
      rfl
    · intro sid hsid hget
      unfold get_sf_client
      rw [hd]
      simp only [Bool.false_eq_true, if_false]
      rw [if_neg hsid, hget]
    · intro sid sess hsid hget
      unfold get_sf_client
      rw [hd]
      simp only [Bool.false_eq_true, if_false]
      rw [if_neg hsid, hget]

/-- C8 (witness): resolution outcomes at concrete settings and a store
holding the single session `sid1`. -/
theorem C8_witness :
    get_sf_client demoSettings none emptyStore = .demo
    ∧ get_sf_client liveSettings none storeW = .unauthenticated
    ∧ get_sf_client liveSettings (some "missing") storeW = .sessionExpired
    ∧ get_sf_client liveSettings (some "sid1") storeW = .live "url1" "tok1" := by
  have hdemo := (C8_provider_resolution demoSettings emptyStore).1 none (by decide)
  have hlive := (C8_provider_resolution liveSettings storeW).2 rfl (by decide) (by decide)
  exact ⟨hdemo, hlive.1, hlive.2.1 "missing" (by decide) rfl,
    hlive.2.2 "sid1" bundleW (by decide) rfl⟩

/-- C9: session round-trip — after `create_session` with an identifier the
bundle is returned exactly by `get_session`; after `delete_session` the
identifier no longer resolves; deletion is idempotent; and deleting an
absent identifier leaves the store unchanged (a no-op, never a failure). -/
theorem C9_session_roundtrip : ∀ (st : SessionStore) (sid : String) (b : SessionBundle),
    get_session (create_session st sid b) sid = some b
    ∧ get_session (delete_session st sid) sid = none
    ∧ delete_session (delete_session st sid) sid = delete_session st sid
    ∧ (get_session st sid = none → delete_session st sid = st) := by
  intro st sid b
  refine ⟨?_, ?_, ?_, ?_⟩
  · unfold get_session create_session
    simp
  · unfold get_session delete_session
    simp
  · funext k
    unfold delete_session
    by_cases h : k = sid <;> simp [h]
  · intro h
    funext k
    unfold delete_session
    by_cases hk : k = sid
    · subst hk
      unfold get_session at h
      simp [h]
    · simp [hk]

/-- C9 (witness): the round-trip facts at the empty store with identifier
`s1`. -/
theorem C9_witness :
    get_session (create_session emptyStore "s1" bundleW) "s1" = some bundleW
    ∧ get_session (delete_session emptyStore "s1") "s1" = none
    ∧ delete_session (delete_session emptyStore "s1") "s1" = delete_session emptyStore "s1"
    ∧ delete_session emptyStore "s1" = emptyStore := by
  have h := C9_session_roundtrip emptyStore "s1" bundleW
  exact ⟨h.1, h.2.1, h.2.2.1, h.2.2.2 rfl⟩

/-- C10: in the offline provider, every record returned by
`get_opportunities` is the projection of a table row with a present amount
(for any combination of filters, so in particular with none), and `total`
never exceeds the number of amount-present rows; in the live provider, the
filter built with no caller-supplied filters is exactly `Amount != null`,
which matches precisely the records with a present amount. -/
theorem C10_amount_baseline :
    ∀ (df : List Opp) (limit offset : Nat) (stage owner_id : Option String)
      (ma : Option ℚ) (sb sd : String),
    (∀ rec ∈ (get_opportunities df limit offset stage owner_id ma sb sd).records,
        ∃ r, r ∈ df ∧ r.amount.isSome = true ∧ rec = projOut r)
    ∧ (get_opportunities df limit offset stage owner_id ma sb sd).total
        ≤ (df.filter (fun r => r.amount.isSome)).length
    ∧ SF.whereClause none none none = "Amount != null"
    ∧ (∀ r : Opp, SF.evalWhere (SF.whereClause none none none) r = r.amount.isSome) := by
  intro df limit offset stage owner_id ma sb sd
  refine ⟨?_, ?_, rfl, ?_⟩
  · intro rec hrec
    have hrec2 : rec ∈ (((sortRecords sb sd
        (applyFilters df stage owner_id ma)).drop offset).take limit).map projOut := hrec
    obtain ⟨p, hp, hpe⟩ := List.mem_map.mp hrec2
    have hp2 : p ∈ sortRecords sb sd (applyFilters df stage owner_id ma) :=
      List.mem_of_mem_drop (List.mem_of_mem_take hp)
    have hp3 : p ∈ applyFilters df stage owner_id ma :=
      (sortRecords_perm sb sd _).mem_iff.mp hp2
    have hp4 : p ∈ df.filter (fun r => r.amount.isSome) :=
      (applyFilters_sublist df stage owner_id ma).mem hp3
    obtain ⟨hdf, hsome⟩ := List.mem_filter.mp hp4
    exact ⟨p, hdf, hsome, hpe.symm⟩
  · rw [get_opportunities_total]
    exact (applyFilters_sublist df stage owner_id ma).length_le
  · intro r
    have h1 : SF.splitOR (SF.whereClause none none none).toList
        = [("Amount != null").toList] := by decide
    have h2 : SF.splitAND (("Amount != null").toList) = [("Amount != null").toList] := by
      decide
    unfold SF.evalWhere
    rw [h1]
    simp only [List.any_cons, List.any_nil, h2, List.all_cons, List.all_nil, SF.evalAtom]
    simp

/-- C10 (witness): the baseline-filter facts instantiated at a concrete
table and unfiltered page request. -/
theorem C10_witness :
    (∀ rec ∈ (get_opportunities [oppA, rOther] 3 0 none none none "CloseDate" "DESC").records,
        ∃ r, r ∈ [oppA, rOther] ∧ r.amount.isSome = true ∧ rec = projOut r)
    ∧ (get_opportunities [oppA, rOther] 3 0 none none none "CloseDate" "DESC").total
        ≤ ((List.filter (fun r => r.amount.isSome) [oppA, rOther])).length
    ∧ SF.whereClause none none none = "Amount != null"
    ∧ (∀ r : Opp, SF.evalWhere (SF.whereClause none none none) r = r.amount.isSome) :=
  C10_amount_baseline [oppA, rOther] 3 0 none none none "CloseDate" "DESC"

end Dashboard
